import Mathlib

/-!
Verification of the nano-ui dynamic native-object bridge (src/nano/ui.cpp and
src/nano/ui.h) through a shallow embedding.  Each definition below mirrors one
function of the source; theorems at the end settle the spec's claims about the
trampoline machinery, bridge teardown, reference counting, event construction
and the application delegate.
-/

namespace NanoUI

/-- Event classification, from the `event_type` enum (ui.h:422). -/
inductive event_type where
  | none
  | left_mouse_down
  | left_mouse_up
  | right_mouse_down
  | right_mouse_up
  | mouse_moved
  | left_mouse_dragged
  | right_mouse_dragged
  | mouse_entered
  | mouse_exited
  | scroll_wheel
  | tablet_pointer
  | tablet_proximity
  | other_mouse_down
  | other_mouse_up
  | other_mouse_dragged
  | key_down
  | key_up
  | key_flags_changed
deriving DecidableEq, Repr

/-- Mouse-event predicate, from `nano::is_mouse_event` (ui.h:2512): the switch
lists exactly the down/up/moved/dragged cases (enter/exit are not included). -/
def is_mouse_event : event_type → Bool
  | event_type.left_mouse_down => true
  | event_type.left_mouse_up => true
  | event_type.right_mouse_down => true
  | event_type.right_mouse_up => true
  | event_type.mouse_moved => true
  | event_type.left_mouse_dragged => true
  | event_type.right_mouse_dragged => true
  | event_type.other_mouse_down => true
  | event_type.other_mouse_up => true
  | event_type.other_mouse_dragged => true
  | _ => false

/-- 2-D position with the source's float coordinates modelled as integers
(the claims only copy and compare positions, never do arithmetic on them). -/
structure point where
  x : Int
  y : Int
deriving DecidableEq, Repr

/-- Fields of `nano::event` relevant to the click-anchor logic, with the
default member initializers of ui.h:561-562 (`m_position = {0, 0}`,
`m_click_position = {0, 0}`) applied by the delegating `event()` constructor. -/
structure event_fields where
  m_type : event_type
  m_position : point
  m_click_position : point
deriving DecidableEq, Repr

/-- Field state produced by the private default constructor `event()` before
`event::event(handle, view)` runs its body (ui.cpp:1285-1286). -/
def event_default_fields : event_fields :=
  { m_type := event_type.none, m_position := { x := 0, y := 0 },
    m_click_position := { x := 0, y := 0 } }

/-- The position/click-anchor part of `event::event` (ui.cpp:1285-1305).
`location` stands for `get_location_in_view(handle, view)` and `s_click` for
the process-wide `s_click_position` (ui.cpp:1283) read at entry.  Returns the
constructed fields together with the new value of `s_click_position`. -/
def event_construct (t : event_type) (location : point) (s_click : point) :
    event_fields × point :=
  let e0 := { event_default_fields with m_type := t }
  if is_mouse_event t then
    let e1 := { e0 with m_position := location }
    if t = event_type.left_mouse_down ∨ t = event_type.right_mouse_down
        ∨ t = event_type.other_mouse_down then
      ({ e1 with m_click_position := location }, location)
    else
      ({ e1 with m_click_position := s_click }, s_click)
  else
    (e0, s_click)

/-- `nano::return_default_value<ReturnType>()` (ui.cpp:37-42): value
initialization `ReturnType{}`, i.e. zero for integers, false for booleans and
nothing for void. -/
def return_default_value (R : Type) [Inhabited R] : R := default

/-- Trampoline generated by `objc_class::add_member_method_impl`
(ui.cpp:356-365): read the back-pointer from the ivar slot; if non-null invoke
the member function with the forwarded arguments and return its result,
otherwise return `return_default_value<ReturnType>()`. -/
def member_trampoline {D R A : Type} [Inhabited R]
    (member : D → A → R) (ivar : Option D) (args : A) : R :=
  match ivar with
  | some p => member p args
  | Option.none => return_default_value R

/-- Trampoline generated by `objc_class::add_notification_method`
(ui.cpp:301-311): same null-guarded dispatch, specialised to a single
notification-object argument and a void return. -/
def notification_trampoline {D N : Type}
    (member : D → N → Unit) (ivar : Option D) (note : N) : Unit :=
  match ivar with
  | some p => member p note
  | Option.none => ()

/-- Steps a bridge-instance destructor performs on native state, in program
order. -/
inductive teardown_action where
  | remove_tracking_area
  | null_back_pointer
  | release_peer
  | clear_window_delegate
  | release_window
  | clear_application_delegate
deriving DecidableEq, Repr

/-- `view::pimpl::~pimpl` (ui.cpp:1806-1826): early-out when `m_obj` is null;
otherwise remove/release the tracking area if present, then
`set_pointer(m_obj, nullptr)` and finally `objc_reset(m_obj)`. -/
def view_pimpl_destructor (m_obj m_trackingArea : Bool) : List teardown_action :=
  if m_obj = false then []
  else
    (if m_trackingArea then [teardown_action.remove_tracking_area] else [])
      ++ [teardown_action.null_back_pointer, teardown_action.release_peer]

/-- `window_object::~window_object` (ui.cpp:1427-1443): clear the window's
delegate, then null the delegate peer's ivar back-pointer and release the
peer, then release the window. -/
def window_object_destructor (m_window m_obj : Bool) : List teardown_action :=
  (if m_window then [teardown_action.clear_window_delegate] else [])
    ++ (if m_obj then
          [teardown_action.null_back_pointer, teardown_action.release_peer]
        else [])
    ++ (if m_window then [teardown_action.release_window] else [])

/-- `application::native::~native` (ui.cpp:2485-2491): clear the shared
application's delegate and release the delegate peer.  The ivar back-pointer
set in the constructor (ui.cpp:2479) is never nulled here. -/
def application_native_destructor (m_obj : Bool) : List teardown_action :=
  if m_obj then
    [teardown_action.clear_application_delegate, teardown_action.release_peer]
  else []

/-- Index of the first occurrence of an action in a teardown trace. -/
def first_index_of (a : teardown_action) : List teardown_action → Option Nat
  | [] => Option.none
  | b :: l => if b = a then some 0 else (first_index_of a l).map (· + 1)

/-- A teardown trace nulls the ivar back-pointer before releasing the native
peer: whenever the trace releases the peer, a preceding step nulled the
back-pointer. -/
def nulls_before_release (tr : List teardown_action) : Bool :=
  match first_index_of teardown_action.null_back_pointer tr,
      first_index_of teardown_action.release_peer tr with
  | some i, some j => decide (i < j)
  | _, Option.none => true
  | Option.none, some _ => false

/-- The character table of `generate_random_alphanum_string` (ui.cpp:192). -/
def alphanum : List Char :=
  String.toList "0123456789ABCDEFGHIJKLMNOPQRSTUVWXYZabcdefghijklmnopqrstuvwxyz"

/-- `alphanumSize = sizeof(alphanum)` (ui.cpp:196): the C `sizeof` counts the
terminating NUL of the string literal, so this is 63, not 62. -/
def alphanumSize : Nat := alphanum.length + 1

/-- The fixed default seed of a default-constructed `std::mt19937`
(`std::mt19937::default_seed`), used because ui.cpp:201 never seeds `rng`. -/
def mt19937_default_seed : Nat := 5489

/-- `generate_random_alphanum_string` (ui.cpp:191-209), parameterized by the
engine state type and by `dist`, the draw of
`uniform_int_distribution(0, alphanumSize - 1)` together with the engine
advance (its exact mapping is implementation-defined, so it is kept abstract).
Each loop iteration draws an index and writes `alphanum[index]`; index 62
would yield the NUL terminator, modelled by the `Char.ofNat 0` fallback. -/
def generate_random_alphanum_string {σ : Type} (dist : σ → Nat × σ) :
    σ → Nat → List Char
  | _, 0 => []
  | rng, n + 1 =>
    let d := dist rng
    alphanum.getD d.1 (Char.ofNat 0) :: generate_random_alphanum_string dist d.2 n

/-- One invocation of the suffix generator as performed by the program.  The
body of `generate_random_alphanum_string` constructs its engine locally as
`std::mt19937 rng;` (ui.cpp:201) — default-seeded, with no per-call entropy —
so every invocation starts from `seed_engine mt19937_default_seed` and the
invocation index cannot influence the result. -/
def suffix_of_invocation {σ : Type} (dist : σ → Nat × σ) (seed_engine : Nat → σ)
    (length _invocation : Nat) : List Char :=
  generate_random_alphanum_string dist (seed_engine mt19937_default_seed) length

/-- State of one reference-counted native resource (a `CTFontRef` or
`CGImageRef`).  `freed` is set when the count reaches zero; `over_release`
records that a retain or release was applied to an already-released
resource (a use-after-free / over-release). -/
structure resource_state where
  refcount : Int
  freed : Bool
  over_release : Bool
deriving DecidableEq, Repr

/-- `CFRetain` / `CGImageRetain` on the tracked resource. -/
def cf_retain (r : resource_state) : resource_state :=
  if r.freed then { r with over_release := true }
  else { r with refcount := r.refcount + 1 }

/-- `CFRelease` / `CGImageRelease` on the tracked resource: dropping the last
reference frees it. -/
def cf_release (r : resource_state) : resource_state :=
  if r.freed then { r with over_release := true }
  else if r.refcount ≤ 1 then { r with refcount := r.refcount - 1, freed := true }
  else { r with refcount := r.refcount - 1 }

/-- `font::operator=(const font&)` (ui.cpp:695-708) restricted to handles over
the single tracked resource (`dst_native` / `src_native` say whether each
handle references it): release the old reference, copy the handle, retain the
new reference.  The source has no self-assignment guard. -/
def font_copy_assign (dst_native src_native : Bool) (r : resource_state) :
    Bool × resource_state :=
  let r1 := if dst_native then cf_release r else r
  let r2 := if src_native then cf_retain r1 else r1
  (src_native, r2)

/-- `image::operator=(const image&)` (ui.cpp:479-497): identical handles
(`m_native == img.m_native`) short-circuit before any release, otherwise
release-copy-retain as for `font`.  Over the single tracked resource, handle
equality is equality of the two booleans. -/
def image_copy_assign (dst_native src_native : Bool) (r : resource_state) :
    Bool × resource_state :=
  if dst_native = src_native then (dst_native, r)
  else
    let r1 := if dst_native then cf_release r else r
    let r2 := if src_native then cf_retain r1 else r1
    (src_native, r2)

/-- `font::font(const font&)` (ui.cpp:673-680) / `image::image(const image&)`
(ui.cpp:449-456): copy the handle and retain when non-null. -/
def handle_copy_construct (src_native : Bool) (r : resource_state) :
    Bool × resource_state :=
  (src_native, if src_native then cf_retain r else r)

/-- `font::~font` (ui.cpp:689-693) / `image::~image` (ui.cpp:473-477):
release when the handle is non-null. -/
def handle_destructor (m_native : Bool) (r : resource_state) : resource_state :=
  if m_native then cf_release r else r

/-- Observable steps of `view::~view`. -/
inductive dtor_event where
  | error_children_not_empty
  | error_not_in_parent_list
  | remove_from_superview
  | did_remove_subview
deriving DecidableEq, Repr

/-- `view::~view` (ui.cpp:2202-2236).  `self` is the view's identity,
`children` the pimpl's `m_children`, and `parent_children` is
`m_parent->m_pimpl->m_children` when `m_parent` is non-null.  Returns the
ordered trace of reported errors and native/parent notifications together
with the parent's updated child list.  A non-empty child list raises
`NANO_ERROR("WRONG")`; with a parent, the view is erased from the parent's
list (another error if absent), the peer is removed from its superview, and
`on_did_remove_subview` is invoked on the parent. -/
def view_destructor (self : Nat) (children : List Nat)
    (parent_children : Option (List Nat)) :
    List dtor_event × Option (List Nat) :=
  let errs := if children.isEmpty then []
    else [dtor_event.error_children_not_empty]
  match parent_children with
  | some vec =>
    let found := self ∈ vec
    let errs2 := if found then errs else errs ++ [dtor_event.error_not_in_parent_list]
    let vec2 := if found then vec.erase self else vec
    (errs2 ++ [dtor_event.remove_from_superview, dtor_event.did_remove_subview],
      some vec2)
  | Option.none =>
    (errs ++ [dtor_event.remove_from_superview], Option.none)

/-- `view::pimpl::on_mouse_moved` (ui.cpp:1996-2006).  `m_view` is the
receiving view, `hit_test_result` the deepest native subview returned by
`hitTest:` at the event's window location, and `ivar_of` maps a native view to
the managed view of its pimpl back-pointer when that back-pointer is non-null
(`classObject.get_pointer(subview)->m_view`).  The result lists the
`on_mouse_moved` invocations performed, each paired with the view referenced
by the event passed to it. -/
def on_mouse_moved_dispatch (m_view : Nat) (hit_test_result : Option Nat)
    (ivar_of : Nat → Option Nat) : List (Nat × Nat) :=
  match hit_test_result with
  | some subview =>
    match ivar_of subview with
    | some p_view => [(p_view, p_view)]
    | Option.none => [(m_view, m_view)]
  | Option.none => [(m_view, m_view)]

/-- Counters of focus hooks invoked on a managed view. -/
structure view_hooks where
  on_focus_count : Nat
  on_unfocus_count : Nat
deriving DecidableEq, Repr

/-- `m_view->on_focus()`. -/
def view_on_focus (v : view_hooks) : view_hooks :=
  { v with on_focus_count := v.on_focus_count + 1 }

/-- `m_view->on_unfocus()`. -/
def view_on_unfocus (v : view_hooks) : view_hooks :=
  { v with on_unfocus_count := v.on_unfocus_count + 1 }

/-- `view::pimpl::become_first_responder` (ui.cpp:2035-2038): invoke
`on_focus()` on the managed view and return true. -/
def become_first_responder (v : view_hooks) : view_hooks × Bool :=
  (view_on_focus v, true)

/-- `view::pimpl::resign_first_responder` (ui.cpp:2040-2043): invoke
`on_unfocus()` on the managed view and return true. -/
def resign_first_responder (v : view_hooks) : view_hooks × Bool :=
  (view_on_unfocus v, true)

/-- `application::native::application_should_terminate` (ui.cpp:2523-2532):
translate the managed application's `should_terminate()` answer into the
native sentinels NSTerminateNow = 1 and NSTerminateCancel = 0. -/
def application_should_terminate (should_terminate_result : Bool) : Nat :=
  if should_terminate_result then 1 else 0

/-- `application::get_command_line_arguments` (ui.cpp:2628-2642): append every
argument followed by a space, then `str.pop_back()`.  Strings are modelled as
character lists; `pop_back` on an empty string is undefined behavior and is
modelled as `Option.none`. -/
def get_command_line_arguments (args : List String) : Option (List Char) :=
  let str := args.foldl (fun acc a => acc ++ a.toList ++ [(Char.ofNat 32)]) []
  match str with
  | [] => Option.none
  | _ :: _ => some str.dropLast

/-- The argument list captured on Windows startup:
`NANO_APPLICATION_MAIN_ARGS` (ui.h:825) expands to `0, nullptr`, and
`application::initialize_application` (ui.cpp:2646-2656) then stores an empty
vector. -/
def windows_startup_arguments : List String := []

end NanoUI

namespace NanoUI

/-- Claim C1: a method installed from a host-language member-function pointer
gets a trampoline that first reads the back-pointer from the ivar slot; when
it is non-null the member function is invoked with the forwarded arguments
and its result is returned, and when it is null the member function is not
invoked (the result is the same for every member function) and a
type-appropriate default (zero for integers, false for booleans, nothing for
void) is returned; the notification-method trampoline follows the same
null-guarded dispatch. -/
theorem trampoline_null_guard {D R A : Type} [Inhabited R]
    (member : D → A → R) (p : D) (args : A) :
    member_trampoline member (some p) args = member p args
    ∧ (∀ m1 m2 : D → A → R,
        member_trampoline m1 Option.none args = return_default_value R
        ∧ member_trampoline m1 Option.none args = member_trampoline m2 Option.none args)
    ∧ (∀ (mn : D → A → Unit) (iv : Option D) (a : A),
        notification_trampoline mn iv a = member_trampoline mn iv a)
    ∧ return_default_value Int = 0
    ∧ return_default_value Bool = false
    ∧ return_default_value Unit = () := by
  refine ⟨rfl, fun m1 m2 => ⟨rfl, rfl⟩, ?_, rfl, rfl, rfl⟩
  intro mn iv a
  cases iv <;> rfl

/-- Claim C2 counterexample: the application bridge's destructor releases its
native delegate peer without ever nulling the ivar back-pointer
(ui.cpp:2485-2491), so the claim that every bridge-instance destructor (view
pimpl, window_object, application native) nulls the back-pointer before
releasing the peer is false. -/
theorem application_native_destructor_skips_null :
    teardown_action.release_peer ∈ application_native_destructor true
    ∧ teardown_action.null_back_pointer ∉ application_native_destructor true
    ∧ nulls_before_release (application_native_destructor true) = false := by
  decide

/-- Claim C2 (amended): for the view pimpl and window_object bridge
instances, the destructor nulls the back-pointer in the native peer's ivar
slot before releasing the peer, so a native notification delivered to the
still-allocated peer afterwards takes the trampoline's null-guard path and
never dereferences the managed object; the application bridge's destructor
instead clears the application delegate and releases its peer without
nulling the ivar. -/
theorem pimpl_window_destructors_null_before_release
    (m_obj m_trackingArea m_window : Bool) (h : m_obj = true) :
    nulls_before_release (view_pimpl_destructor m_obj m_trackingArea) = true
    ∧ nulls_before_release (window_object_destructor m_window m_obj) = true
    ∧ (∀ (D R A : Type) [Inhabited R] (m : D → A → R) (args : A),
        member_trampoline m Option.none args = return_default_value R) := by
  subst h
  refine ⟨?_, ?_, fun D R A _ m args => rfl⟩
  · cases m_trackingArea <;> decide
  · cases m_window <;> decide

/-- Witness for the amended C2 theorem at concrete inputs. -/
theorem pimpl_window_destructors_null_before_release_witness :
    nulls_before_release (view_pimpl_destructor true true) = true
    ∧ nulls_before_release (window_object_destructor true true) = true
    ∧ member_trampoline (fun (_d : Nat) (_a : Nat) => (7 : Int)) Option.none (3 : Nat)
        = return_default_value Int := by
  have h := pimpl_window_destructors_null_before_release true true true rfl
  exact ⟨h.1, h.2.1, h.2.2 Nat Int Nat (fun _d _a => (7 : Int)) 3⟩

/-- Claim C3: the suffix generator default-constructs (and never seeds) its
local mt19937 engine, so its output is a deterministic function of the
requested length alone — any two invocations, whether by distinct descriptors
in one process or by successive runs within one process, produce the
identical suffix rather than distinct ones. -/
theorem suffix_generator_deterministic :
    ∀ (σ : Type) (dist : σ → Nat × σ) (seed_engine : Nat → σ) (n i j : Nat),
      suffix_of_invocation dist seed_engine n i
        = suffix_of_invocation dist seed_engine n j := by
  intro σ dist seed_engine n i j
  rfl

/-- Claim C4 failing trace: self-assigning a font handle that solely owns its
resource (refcount 1) releases the last reference, freeing the resource, then
retains and finally releases the freed resource — an over-release, so the
copy round-trip does not return the count to its pre-construction value.  The
image assignment's self-assignment guard avoids this: the same trace on an
image ends with the count exactly at zero and no over-release. -/
theorem font_self_assignment_over_release :
    (handle_destructor
        (font_copy_assign true true
          { refcount := 1, freed := false, over_release := false }).1
        (font_copy_assign true true
          { refcount := 1, freed := false, over_release := false }).2).over_release = true
    ∧ handle_destructor
        (image_copy_assign true true
          { refcount := 1, freed := false, over_release := false }).1
        (image_copy_assign true true
          { refcount := 1, freed := false, over_release := false }).2
      = { refcount := 0, freed := true, over_release := false } := by
  constructor <;> rfl

/-- Claim C5: destroying a view that still has live children is reported as a
programming error; destroying a view with no children and a managed parent
proceeds with no error, erases the view from the parent's child list,
removes the native peer from its superview and notifies the parent through
on_did_remove_subview. -/
theorem view_destructor_spec (self : Nat) (children vec : List Nat)
    (parent_children : Option (List Nat)) :
    (children ≠ [] →
      dtor_event.error_children_not_empty
        ∈ (view_destructor self children parent_children).1)
    ∧ (self ∈ vec →
      view_destructor self [] (some vec)
        = ([dtor_event.remove_from_superview, dtor_event.did_remove_subview],
            some (vec.erase self))) := by
  constructor
  · intro h
    have hne : children.isEmpty = false := by
      cases children with
      | nil => exact absurd rfl h
      | cons a l => rfl
    cases parent_children with
    | none => simp [view_destructor, hne]
    | some vec2 =>
      by_cases hm : self ∈ vec2 <;> simp [view_destructor, hne, hm]
  · intro h
    simp [view_destructor, h]

/-- Witness for C5 at concrete inputs. -/
theorem view_destructor_spec_witness :
    dtor_event.error_children_not_empty ∈ (view_destructor 1 [2] Option.none).1
    ∧ view_destructor 1 [] (some [1, 3])
      = ([dtor_event.remove_from_superview, dtor_event.did_remove_subview], some [3]) := by
  have h := view_destructor_spec 1 [2] [1, 3] Option.none
  refine ⟨h.1 (by decide), ?_⟩
  have h2 := h.2 (by decide)
  rw [h2]
  rfl

/-- Claim C6: the mouse-move handler first hit-tests for the deepest native
subview under the cursor's window location; if that subview exists and its
ivar back-pointer is non-null, on_mouse_moved is invoked only on that
subview's managed view with an event referencing that view (the receiving
view's handler is not invoked); otherwise on_mouse_moved is invoked on the
receiving view's managed view. -/
theorem mouse_moved_hit_test_dispatch (m_view : Nat) (ivar_of : Nat → Option Nat) :
    (∀ sv pv, ivar_of sv = some pv →
      on_mouse_moved_dispatch m_view (some sv) ivar_of = [(pv, pv)])
    ∧ (∀ sv, ivar_of sv = Option.none →
      on_mouse_moved_dispatch m_view (some sv) ivar_of = [(m_view, m_view)])
    ∧ on_mouse_moved_dispatch m_view Option.none ivar_of = [(m_view, m_view)] := by
  refine ⟨fun sv pv h => ?_, fun sv h => ?_, rfl⟩
  · simp [on_mouse_moved_dispatch, h]
  · simp [on_mouse_moved_dispatch, h]

/-- Witness for C6: the pointer over bridge-managed subview 5 delivers the
move to its managed view 7 only; over unmanaged subview 6 the receiving
view 0 gets the move. -/
theorem mouse_moved_hit_test_dispatch_witness :
    on_mouse_moved_dispatch 0 (some 5)
        (fun n => if n = 5 then some 7 else Option.none) = [(7, 7)]
    ∧ on_mouse_moved_dispatch 0 (some 6)
        (fun n => if n = 5 then some 7 else Option.none) = [(0, 0)] := by
  have h := mouse_moved_hit_test_dispatch 0 (fun n => if n = 5 then some 7 else Option.none)
  exact ⟨h.1 5 7 (by simp), h.2.1 6 (by simp)⟩

/-- Claim C7: for every constructed mouse event, a button-down (left, right
or other) stores its cursor position as the event's click position and
updates the process-wide click anchor to that position; every other mouse
event reports the click anchor — the most recent button-down position — as
its click position and leaves the anchor unchanged. -/
theorem event_click_anchor (t : event_type) (location s_click : point)
    (h : is_mouse_event t = true) :
    ((t = event_type.left_mouse_down ∨ t = event_type.right_mouse_down
        ∨ t = event_type.other_mouse_down) →
      (event_construct t location s_click).1.m_click_position = location
      ∧ (event_construct t location s_click).2 = location)
    ∧ (¬(t = event_type.left_mouse_down ∨ t = event_type.right_mouse_down
        ∨ t = event_type.other_mouse_down) →
      (event_construct t location s_click).1.m_click_position = s_click
      ∧ (event_construct t location s_click).2 = s_click) := by
  cases t <;> simp_all [event_construct, is_mouse_event]

/-- Witness for C7: a drag at (1,2) after an anchor at (3,4) reports click
position (3,4); a left-down at (1,2) reports click position (1,2). -/
theorem event_click_anchor_witness :
    ((event_construct event_type.left_mouse_dragged { x := 1, y := 2 }
        { x := 3, y := 4 }).1.m_click_position = { x := 3, y := 4 }
      ∧ (event_construct event_type.left_mouse_dragged { x := 1, y := 2 }
        { x := 3, y := 4 }).2 = { x := 3, y := 4 })
    ∧ (event_construct event_type.left_mouse_down { x := 1, y := 2 }
        { x := 3, y := 4 }).1.m_click_position = { x := 1, y := 2 } := by
  have h1 := event_click_anchor event_type.left_mouse_dragged
    { x := 1, y := 2 } { x := 3, y := 4 } (by decide)
  have h2 := event_click_anchor event_type.left_mouse_down
    { x := 1, y := 2 } { x := 3, y := 4 } (by decide)
  exact ⟨h1.2 (by decide), (h2.1 (by decide)).1⟩

/-- Claim C8: the termination-permission handler answers NSTerminateNow (1)
exactly when should_terminate() returns true and NSTerminateCancel (0)
exactly when it returns false. -/
theorem application_should_terminate_sentinels :
    application_should_terminate true = 1
    ∧ application_should_terminate false = 0
    ∧ (∀ b : Bool, application_should_terminate b = 1 ↔ b = true)
    ∧ (∀ b : Bool, application_should_terminate b = 0 ↔ b = false) := by
  refine ⟨rfl, rfl, ?_, ?_⟩ <;> intro b <;> cases b <;>
    simp [application_should_terminate]

/-- Claim C9: the native become-first-responder callback invokes on_focus()
exactly once on the managed view and returns true, the resign callback
invokes on_unfocus() exactly once and returns true; both return true for
every view state, so neither can veto the focus change. -/
theorem first_responder_always_accepts (v : view_hooks) :
    (become_first_responder v).2 = true
    ∧ (become_first_responder v).1.on_focus_count = v.on_focus_count + 1
    ∧ (become_first_responder v).1.on_unfocus_count = v.on_unfocus_count
    ∧ (resign_first_responder v).2 = true
    ∧ (resign_first_responder v).1.on_unfocus_count = v.on_unfocus_count + 1
    ∧ (resign_first_responder v).1.on_focus_count = v.on_focus_count :=
  ⟨rfl, rfl, rfl, rfl, rfl, rfl⟩

/-- Claim C10 failing input: with the empty argument list captured on Windows
startup (NANO_APPLICATION_MAIN_ARGS supplies zero arguments), the join loop
appends nothing and str.pop_back() executes on the empty string — undefined
behavior, modelled as none; on a non-empty list the function returns the
arguments joined by single spaces with no trailing separator. -/
theorem command_line_arguments_empty_pop_back :
    get_command_line_arguments windows_startup_arguments = Option.none
    ∧ get_command_line_arguments ["nano", "ui"] = some (String.toList "nano ui") := by
  constructor <;> rfl

end NanoUI
